import Mathlib

/-!
Verification of the nanoparticle formulation scoring engine (`core/scoring.py`).

The engine is a library of pure functions over a `Design` record. Numeric
fields are modelled as exact rationals (`ℚ`); a Python `KeyError` on a
missing required field is modelled by `Option`: every function that reads a
required field (`Size`, `Charge`, `Encapsulation`) returns `none` when that
field is absent. Optional fields carry their documented defaults via `getD`.
-/

namespace Scoring

/-- A design record. `Size`, `Charge`, `Encapsulation` are required at the
call sites (the code indexes the dict directly); the remaining fields are
read with `.get` and a default, so absence is not an error for them. -/
structure Design where
  Size : Option ℚ := none
  Charge : Option ℚ := none
  Encapsulation : Option ℚ := none
  PDI : Option ℚ := none
  HydrodynamicSize : Option ℚ := none
  Stability : Option ℚ := none
  SurfaceArea : Option ℚ := none
  DegradationTime : Option ℚ := none
  Material : Option String := none
deriving Repr, DecidableEq

/-- The result record of `compute_impact`. -/
structure Impact where
  Delivery : ℚ
  Toxicity : ℚ
  Cost : ℚ
deriving Repr, DecidableEq

/-- Size sub-score: plateau 100 on [80,120], linear ramp below 80,
linear decay above 120 floored at 0. -/
def size_score (size : ℚ) : ℚ :=
  if 80 ≤ size ∧ size ≤ 120 then 100
  else if size < 80 then (size / 80) * 100
  else max 0 (100 - ((size - 120) / 2))

/-- Charge sub-score: plateau 100 for |Charge| ≤ 10, else linear decay
floored at 0. -/
def charge_score (charge : ℚ) : ℚ :=
  if |charge| ≤ 10 then 100
  else max 0 (100 - ((|charge| - 10) * 3))

/-- PDI sub-score: `max(0, 100 - PDI*200)`. -/
def pdi_score (pdi : ℚ) : ℚ :=
  max 0 (100 - pdi * 200)

/-- Hydrodynamic/core size ratio, guarded: a falsy (zero) `Size` yields
ratio 1.0 instead of dividing. -/
def sizeRatioFn (size hyd_size : ℚ) : ℚ :=
  if size ≠ 0 then hyd_size / size else 1

/-- Hydrodynamic sub-score: plateau 100 for ratio in [1.0,1.3], else
`max(0, 100 - |ratio - 1.15|*50)`. -/
def hydrodynamic_score (size hyd_size : ℚ) : ℚ :=
  let r := sizeRatioFn size hyd_size
  if 1 ≤ r ∧ r ≤ 1.3 then 100
  else max 0 (100 - |r - 1.15| * 50)

/-- The arithmetic core of `compute_impact`, after required fields have been
read and optional fields resolved to their defaults. -/
def impactCore (size charge encap pdi hyd_size stability surface_area
    degradation_time : ℚ) : Impact :=
  let delivery :=
    size_score size * 0.25
    + charge_score charge * 0.20
    + encap * 0.25
    + pdi_score pdi * 0.15
    + hydrodynamic_score size hyd_size * 0.10
    + stability * 0.05
  let base_toxicity := min 10 (|charge| / 10 + max 0 |size - 100| / 50)
  let pdi_toxicity := pdi * 2
  let degradation_toxicity := max 0 ((degradation_time - 30) / 30)
  let toxicity := min 10 (base_toxicity + pdi_toxicity + degradation_toxicity)
  let base_cost := min 100 ((100 - encap) * 0.8 + size / 4)
  let surface_area_cost := surface_area / 20
  let pdi_cost := (0.2 - min pdi 0.2) * 100
  let degradation_cost := max 0 ((degradation_time - 60) / 10)
  let cost := min 100 (base_cost + surface_area_cost + pdi_cost + degradation_cost)
  { Delivery := delivery, Toxicity := toxicity, Cost := cost }

/-- `compute_impact`: reads the required fields (failing when one is
missing, like the dict indexing in the source), resolves optional fields to
their documented defaults, and runs the arithmetic core. -/
def compute_impact (d : Design) : Option Impact := do
  let size ← d.Size
  let charge ← d.Charge
  let encap ← d.Encapsulation
  let pdi := d.PDI.getD 0.15
  let hyd_size := d.HydrodynamicSize.getD (size * 1.2)
  let stability := d.Stability.getD 85
  let surface_area := d.SurfaceArea.getD 250
  let degradation_time := d.DegradationTime.getD 30
  pure (impactCore size charge encap pdi hyd_size stability surface_area
    degradation_time)

/-- The design of the worked spec example: required fields only. -/
def exampleDesign : Design :=
  { Size := some 100, Charge := some 5, Encapsulation := some 85 }

/-- C1 counterexample: on the example design `{Size:100, Charge:5,
Encapsulation:85}` the engine does NOT return Delivery = 92.0 (with
Toxicity 0.8 and Cost 54.5): the weighted sum of the sub-scores is 91.0. -/
theorem c1_example_delivery_cex :
    compute_impact exampleDesign ≠
      some { Delivery := 92, Toxicity := 0.8, Cost := 54.5 } := by
  norm_num [compute_impact, exampleDesign, impactCore, size_score, charge_score,
    pdi_score, hydrodynamic_score, sizeRatioFn, Impact.mk.injEq]

/-- C1 (amended): on the example design the sub-scores are size 100,
charge 100, encapsulation 85, PDI 70, hydrodynamic 100, stability 85, and
`compute_impact` returns Delivery = 91.0 (the weighted sum
100*0.25+100*0.20+85*0.25+70*0.15+100*0.10+85*0.05), Toxicity = 0.8 and
Cost = 54.5. -/
theorem c1_example_scores_amended :
    size_score 100 = 100 ∧
    charge_score 5 = 100 ∧
    pdi_score 0.15 = 70 ∧
    hydrodynamic_score 100 120 = 100 ∧
    compute_impact exampleDesign =
      some { Delivery := 91, Toxicity := 0.8, Cost := 54.5 } := by
  refine ⟨by norm_num [size_score], by norm_num [charge_score],
    by norm_num [pdi_score], by norm_num [hydrodynamic_score, sizeRatioFn], ?_⟩
  norm_num [compute_impact, exampleDesign, impactCore, size_score, charge_score,
    pdi_score, hydrodynamic_score, sizeRatioFn, Impact.mk.injEq]

/-- Unfolding lemma: with the three required fields present,
`compute_impact` succeeds and runs `impactCore` on the values read from the
record, optional fields resolved to their defaults. -/
lemma compute_impact_eq (d : Design) (size charge encap : ℚ)
    (hs : d.Size = some size) (hc : d.Charge = some charge)
    (he : d.Encapsulation = some encap) :
    compute_impact d = some (impactCore size charge encap
      (d.PDI.getD 0.15) (d.HydrodynamicSize.getD (size * 1.2))
      (d.Stability.getD 85) (d.SurfaceArea.getD 250)
      (d.DegradationTime.getD 30)) := by
  simp [compute_impact, hs, hc, he]

lemma impactCore_toxicity_le (size charge encap pdi hyd st sa dt : ℚ) :
    (impactCore size charge encap pdi hyd st sa dt).Toxicity ≤ 10 := by
  simp only [impactCore]
  exact min_le_left _ _

lemma impactCore_cost_le (size charge encap pdi hyd st sa dt : ℚ) :
    (impactCore size charge encap pdi hyd st sa dt).Cost ≤ 100 := by
  simp only [impactCore]
  exact min_le_left _ _

lemma impactCore_toxicity_nonneg (size charge encap pdi hyd st sa dt : ℚ)
    (hp : 0 ≤ pdi) :
    0 ≤ (impactCore size charge encap pdi hyd st sa dt).Toxicity := by
  simp only [impactCore]
  have h1 : (0:ℚ) ≤ |charge| / 10 + max 0 |size - 100| / 50 := by positivity
  have h2 : (0:ℚ) ≤ min 10 (|charge| / 10 + max 0 |size - 100| / 50) :=
    le_min (by norm_num) h1
  have h3 : (0:ℚ) ≤ max 0 ((dt - 30) / 30) := le_max_left _ _
  exact le_min (by norm_num) (by linarith)

lemma impactCore_cost_nonneg (size charge encap pdi hyd st sa dt : ℚ)
    (hsize : 0 ≤ size) (hencap : encap ≤ 100) (hsa : 0 ≤ sa) :
    0 ≤ (impactCore size charge encap pdi hyd st sa dt).Cost := by
  simp only [impactCore]
  have h1 : (0:ℚ) ≤ (100 - encap) * 0.8 + size / 4 := by
    have : (0:ℚ) ≤ (100 - encap) * 0.8 := by nlinarith
    linarith
  have h2 : (0:ℚ) ≤ min 100 ((100 - encap) * 0.8 + size / 4) :=
    le_min (by norm_num) h1
  have h3 : min pdi 0.2 ≤ 0.2 := min_le_right _ _
  have h4 : (0:ℚ) ≤ (0.2 - min pdi 0.2) * 100 := by nlinarith
  have h5 : (0:ℚ) ≤ max 0 ((dt - 60) / 10) := le_max_left _ _
  have h6 : (0:ℚ) ≤ sa / 20 := by positivity
  exact le_min (by norm_num) (by linarith)

/-- A design with all required fields present and a finite but negative
`PDI` value: a witness that the Toxicity lower bound is not universal. -/
def negPdiDesign : Design :=
  { Size := some 100, Charge := some 0, Encapsulation := some 85,
    PDI := some (-1) }

/-- C2 counterexample: for the finite design {Size:100, Charge:0,
Encapsulation:85, PDI:-1}, `compute_impact` succeeds and returns a Toxicity
strictly below 0, so Toxicity does not lie in [0,10] for every finite
input. -/
theorem c2_toxicity_lower_bound_cex :
    (compute_impact negPdiDesign).elim False (fun r => r.Toxicity < 0) := by
  norm_num [compute_impact, negPdiDesign, impactCore, size_score,
    charge_score, pdi_score, hydrodynamic_score, sizeRatioFn]

/-- C2 (amended): for every design with the required fields present,
Toxicity ≤ 10 and Cost ≤ 100 always hold; the lower bound 0 ≤ Toxicity
holds whenever the (possibly defaulted) PDI is nonnegative, and the lower
bound 0 ≤ Cost holds whenever Size ≥ 0, Encapsulation ≤ 100 and the
(possibly defaulted) SurfaceArea is nonnegative. -/
theorem c2_bounds_amended (d : Design) (size charge encap : ℚ)
    (hs : d.Size = some size) (hc : d.Charge = some charge)
    (he : d.Encapsulation = some encap) (r : Impact)
    (hr : compute_impact d = some r) :
    r.Toxicity ≤ 10 ∧ r.Cost ≤ 100 ∧
    (0 ≤ d.PDI.getD 0.15 → 0 ≤ r.Toxicity) ∧
    (0 ≤ size → encap ≤ 100 → 0 ≤ d.SurfaceArea.getD 250 → 0 ≤ r.Cost) := by
  have hval := compute_impact_eq d size charge encap hs hc he
  rw [hval] at hr
  obtain rfl : r = _ := (Option.some_injective _ hr.symm)
  refine ⟨impactCore_toxicity_le _ _ _ _ _ _ _ _,
    impactCore_cost_le _ _ _ _ _ _ _ _,
    fun hp => impactCore_toxicity_nonneg _ _ _ _ _ _ _ _ hp,
    fun h1 h2 h3 => impactCore_cost_nonneg _ _ _ _ _ _ _ _ h1 h2 h3⟩

/-- C2 witness: the amended bounds instantiated at the concrete example
design, whose impact is (91, 0.8, 54.5). -/
theorem c2_bounds_amended_witness :
    (Impact.mk 91 0.8 54.5).Toxicity ≤ 10 ∧
    (Impact.mk 91 0.8 54.5).Cost ≤ 100 ∧
    (0 ≤ exampleDesign.PDI.getD 0.15 → 0 ≤ (Impact.mk 91 0.8 54.5).Toxicity) ∧
    (0 ≤ (100:ℚ) → (85:ℚ) ≤ 100 → 0 ≤ exampleDesign.SurfaceArea.getD 250 →
      0 ≤ (Impact.mk 91 0.8 54.5).Cost) :=
  c2_bounds_amended exampleDesign 100 5 85 rfl rfl rfl _
    (by norm_num [compute_impact, exampleDesign, impactCore, size_score,
      charge_score, pdi_score, hydrodynamic_score, sizeRatioFn,
      Impact.mk.injEq])

/-- The ramp formula extends up to the boundary: for `size ≤ 80` the size
sub-score equals `(size/80)*100` (at 80 both branches give 100). -/
lemma size_score_of_le_80 (s : ℚ) (h : s ≤ 80) :
    size_score s = s / 80 * 100 := by
  unfold size_score
  split_ifs with h1 h2
  · obtain rfl : s = 80 := le_antisymm h h1.1
    norm_num
  · rfl
  · exact absurd ⟨le_of_not_lt h2, h.trans (by norm_num)⟩ h1

lemma size_score_of_gt_120 (s : ℚ) (h : 120 < s) :
    size_score s = max 0 (100 - (s - 120) / 2) := by
  unfold size_score
  split_ifs with h1 h2
  · exact absurd h1.2 (not_le.mpr h)
  · exact absurd h2 (not_lt.mpr (by linarith))
  · rfl

/-- C3: shape of the size sub-score: 100 exactly on [80,120]; the linear
ramp `(Size/80)*100` below 80 (in fact up to the boundary 80, which gives
continuity there) and monotone non-decreasing on [0,80]; the floored linear
decay `max 0 (100-(Size-120)/2)` above 120, monotone non-increasing there,
and identically 0 from Size = 320 on. -/
theorem c3_size_score_shape :
    (∀ s : ℚ, 80 ≤ s → s ≤ 120 → size_score s = 100) ∧
    (∀ s : ℚ, s < 80 → size_score s = s / 80 * 100) ∧
    (∀ s : ℚ, s ≤ 80 → size_score s = s / 80 * 100) ∧
    (∀ s t : ℚ, 0 ≤ s → s ≤ t → t ≤ 80 → size_score s ≤ size_score t) ∧
    (∀ s : ℚ, 120 < s → size_score s = max 0 (100 - (s - 120) / 2)) ∧
    (∀ s t : ℚ, 120 < s → s ≤ t → size_score t ≤ size_score s) ∧
    (∀ s : ℚ, 320 ≤ s → size_score s = 0) := by
  refine ⟨?_, ?_, size_score_of_le_80, ?_, size_score_of_gt_120, ?_, ?_⟩
  · intro s h1 h2
    unfold size_score
    rw [if_pos ⟨h1, h2⟩]
  · intro s h
    rw [size_score_of_le_80 s h.le]
  · intro s t hs hst ht
    rw [size_score_of_le_80 s (hst.trans ht), size_score_of_le_80 t ht]
    linarith
  · intro s t hs hst
    rw [size_score_of_gt_120 s hs, size_score_of_gt_120 t (hs.trans_le hst)]
    exact max_le_max le_rfl (by linarith)
  · intro s h
    rw [size_score_of_gt_120 s (by linarith)]
    exact max_eq_left (by linarith)

/-- C3 witness: the shape facts instantiated at concrete sizes. -/
theorem c3_size_score_shape_witness :
    size_score 100 = 100 ∧
    size_score 40 = 40 / 80 * 100 ∧
    size_score 80 = 80 / 80 * 100 ∧
    size_score 20 ≤ size_score 60 ∧
    size_score 200 = max 0 (100 - (200 - 120) / 2) ∧
    size_score 300 ≤ size_score 150 ∧
    size_score 400 = 0 := by
  obtain ⟨h1, h2, h3, h4, h5, h6, h7⟩ := c3_size_score_shape
  exact ⟨h1 100 (by norm_num) (by norm_num), h2 40 (by norm_num),
    h3 80 le_rfl, h4 20 60 (by norm_num) (by norm_num) (by norm_num),
    h5 200 (by norm_num), h6 150 300 (by norm_num) (by norm_num),
    h7 400 (by norm_num)⟩

/-- `np.clip(x, lo, hi)`. -/
def clip (x lo hi : ℚ) : ℚ := min hi (max lo x)

/-- `overall_score_from_impact`: the composite ranking score. -/
def overall_score_from_impact (impact : Impact) : ℚ :=
  clip (impact.Delivery * 0.6 + (10 - impact.Toxicity) * 3
    + (100 - impact.Cost) * 0.1) 0 100

/-- C4: the composite ranker equals the clipped linear formula, and it is
monotone non-decreasing in Delivery and monotone non-increasing in Toxicity
and Cost, holding the other two components fixed. -/
theorem c4_overall_score_monotone :
    (∀ i : Impact, overall_score_from_impact i =
      min 100 (max 0 (i.Delivery * 0.6 + (10 - i.Toxicity) * 3
        + (100 - i.Cost) * 0.1))) ∧
    (∀ i j : Impact, i.Toxicity = j.Toxicity → i.Cost = j.Cost →
      i.Delivery ≤ j.Delivery →
      overall_score_from_impact i ≤ overall_score_from_impact j) ∧
    (∀ i j : Impact, i.Delivery = j.Delivery → i.Cost = j.Cost →
      i.Toxicity ≤ j.Toxicity →
      overall_score_from_impact j ≤ overall_score_from_impact i) ∧
    (∀ i j : Impact, i.Delivery = j.Delivery → i.Toxicity = j.Toxicity →
      i.Cost ≤ j.Cost →
      overall_score_from_impact j ≤ overall_score_from_impact i) := by
  refine ⟨fun i => rfl, ?_, ?_, ?_⟩
  · intro i j ht hc hd
    unfold overall_score_from_impact clip
    exact min_le_min le_rfl (max_le_max le_rfl (by rw [ht, hc]; linarith))
  · intro i j hd hc ht
    unfold overall_score_from_impact clip
    exact min_le_min le_rfl (max_le_max le_rfl (by rw [hd, hc]; linarith))
  · intro i j hd ht hc
    unfold overall_score_from_impact clip
    exact min_le_min le_rfl (max_le_max le_rfl (by rw [hd, ht]; linarith))

/-- C4 witness: the formula and the three monotonicities instantiated at
concrete impact records. -/
theorem c4_overall_score_monotone_witness :
    overall_score_from_impact ⟨91, 0.8, 54.5⟩ =
      min 100 (max 0 ((91:ℚ) * 0.6 + (10 - 0.8) * 3 + (100 - 54.5) * 0.1)) ∧
    overall_score_from_impact ⟨50, 2, 30⟩ ≤ overall_score_from_impact ⟨60, 2, 30⟩ ∧
    overall_score_from_impact ⟨50, 5, 30⟩ ≤ overall_score_from_impact ⟨50, 2, 30⟩ ∧
    overall_score_from_impact ⟨50, 2, 40⟩ ≤ overall_score_from_impact ⟨50, 2, 30⟩ := by
  obtain ⟨h1, h2, h3, h4⟩ := c4_overall_score_monotone
  exact ⟨h1 ⟨91, 0.8, 54.5⟩,
    h2 ⟨50, 2, 30⟩ ⟨60, 2, 30⟩ rfl rfl (by norm_num),
    h3 ⟨50, 2, 30⟩ ⟨50, 5, 30⟩ rfl rfl (by norm_num),
    h4 ⟨50, 2, 30⟩ ⟨50, 2, 40⟩ rfl rfl (by norm_num)⟩

def msgSizeLow : String :=
  "🔴 **Increase size to 80–120nm** for better stability and circulation"

def msgSizeHigh : String :=
  "🔴 **Reduce size to 80–120nm** for better cellular uptake"

def msgChargeHigh : String :=
  "🟡 **Lower surface charge** to ±10mV for reduced toxicity"

def msgChargeMed : String :=
  "🟡 **Reduce charge** closer to neutral for optimal safety"

def msgEncapLow : String :=
  "🔴 **Improve encapsulation to >80%** for better drug delivery efficiency"

def msgEncapMed : String :=
  "🟡 **Aim for >85% encapsulation** for optimal performance"

def msgAllGood : String :=
  "✅ **Excellent design!** All parameters are within optimal ranges"

/-- The severity marker of a recommendation message: its leading symbol
(🔴 high, 🟡 medium, ✅ pass). -/
def severity_marker (s : String) : String := s.take 1

def highSeverityMarker : String := "🔴"

def mediumSeverityMarker : String := "🟡"

/-- `get_recommendations`: appends, in order, at most one size message, one
charge message and one encapsulation message (if-elif within each
category), and falls back to the single all-good message when none
triggered. Reads the three required fields. -/
def get_recommendations (d : Design) : Option (List String) := do
  let size ← d.Size
  let charge ← d.Charge
  let encap ← d.Encapsulation
  let recommendations : List String := []
  let recommendations :=
    if size < 80 then recommendations ++ [msgSizeLow]
    else if size > 150 then recommendations ++ [msgSizeHigh]
    else recommendations
  let recommendations :=
    if |charge| > 15 then recommendations ++ [msgChargeHigh]
    else if |charge| > 10 then recommendations ++ [msgChargeMed]
    else recommendations
  let recommendations :=
    if encap < 70 then recommendations ++ [msgEncapLow]
    else if encap < 85 then recommendations ++ [msgEncapMed]
    else recommendations
  pure (if recommendations = [] then [msgAllGood] else recommendations)

/-- The size-category message of `get_recommendations`, if any. -/
def size_rec (size : ℚ) : Option String :=
  if size < 80 then some msgSizeLow
  else if size > 150 then some msgSizeHigh
  else none

/-- The charge-category message of `get_recommendations`, if any. -/
def charge_rec (charge : ℚ) : Option String :=
  if |charge| > 15 then some msgChargeHigh
  else if |charge| > 10 then some msgChargeMed
  else none

/-- The encapsulation-category message of `get_recommendations`, if any. -/
def encap_rec (encap : ℚ) : Option String :=
  if encap < 70 then some msgEncapLow
  else if encap < 85 then some msgEncapMed
  else none

/-- Unfolding lemma: with the required fields present,
`get_recommendations` returns the concatenation of the three per-category
optional messages, or the fallback when all three are absent. -/
lemma get_recommendations_eq (d : Design) (size charge encap : ℚ)
    (hs : d.Size = some size) (hc : d.Charge = some charge)
    (he : d.Encapsulation = some encap) :
    get_recommendations d = some
      (if (size_rec size).toList ++ (charge_rec charge).toList
          ++ (encap_rec encap).toList = [] then [msgAllGood]
       else (size_rec size).toList ++ (charge_rec charge).toList
          ++ (encap_rec encap).toList) := by
  simp only [get_recommendations, hs, hc, he, Option.bind_eq_bind,
    Option.some_bind, size_rec, charge_rec, encap_rec]
  split_ifs <;> simp_all

/-- C5: with the required fields present, `get_recommendations` returns the
concatenation, in fixed order size–charge–encapsulation, of at most one
message per category (each category an if-elif, hence mutually exclusive
branches), and it returns the single fallback message exactly when all
three categories are silent. -/
theorem c5_recommendations_structure (d : Design) (size charge encap : ℚ)
    (hs : d.Size = some size) (hc : d.Charge = some charge)
    (he : d.Encapsulation = some encap) :
    get_recommendations d = some
      (if (size_rec size).toList ++ (charge_rec charge).toList
          ++ (encap_rec encap).toList = [] then [msgAllGood]
       else (size_rec size).toList ++ (charge_rec charge).toList
          ++ (encap_rec encap).toList) ∧
    (get_recommendations d = some [msgAllGood] ↔
      size_rec size = none ∧ charge_rec charge = none ∧
      encap_rec encap = none) := by
  refine ⟨get_recommendations_eq d size charge encap hs hc he, ?_⟩
  rw [get_recommendations_eq d size charge encap hs hc he]
  unfold size_rec charge_rec encap_rec
  split_ifs <;> simp_all <;> decide

/-- C5 witness: the structure instantiated at the example design, whose
parameters are all in range, so the fallback message is returned. -/
theorem c5_recommendations_structure_witness :
    get_recommendations exampleDesign = some
      (if (size_rec 100).toList ++ (charge_rec 5).toList
          ++ (encap_rec 85).toList = [] then [msgAllGood]
       else (size_rec 100).toList ++ (charge_rec 5).toList
          ++ (encap_rec 85).toList) ∧
    (get_recommendations exampleDesign = some [msgAllGood] ↔
      size_rec 100 = none ∧ charge_rec 5 = none ∧ encap_rec 85 = none) :=
  c5_recommendations_structure exampleDesign 100 5 85 rfl rfl rfl

/-- A design with |Charge| = 20 > 15 and the other parameters in range. -/
def chargeCexDesign : Design :=
  { Size := some 100, Charge := some 20, Encapsulation := some 90 }

/-- A design with |Charge| = 12 (between 10 and 15) and the other
parameters in range. -/
def chargeMedDesign : Design :=
  { Size := some 100, Charge := some 12, Encapsulation := some 90 }

/-- C6 counterexample: for Charge = 20 the returned charge message is the
lower-charge message, but it carries the medium marker 🟡, not the
high-severity marker 🔴 claimed. -/
theorem c6_charge_severity_cex :
    get_recommendations chargeCexDesign = some [msgChargeHigh] ∧
    severity_marker msgChargeHigh ≠ highSeverityMarker := by
  constructor
  · rw [get_recommendations_eq chargeCexDesign 100 20 90 rfl rfl rfl]
    norm_num [size_rec, charge_rec, encap_rec]
  · decide

/-- C6 (amended): for |Charge| > 15 the charge-category message in the
returned recommendations is the lower-charge message, and for
10 < |Charge| ≤ 15 it is the reduce-charge message; both carry the
medium-severity marker 🟡 (the code does not use the high marker 🔴 for
either charge branch). -/
theorem c6_charge_messages_amended (d : Design) (size charge encap : ℚ)
    (hs : d.Size = some size) (hc : d.Charge = some charge)
    (he : d.Encapsulation = some encap) (recs : List String)
    (hr : get_recommendations d = some recs) :
    (15 < |charge| →
      msgChargeHigh ∈ recs ∧
      severity_marker msgChargeHigh = mediumSeverityMarker) ∧
    (10 < |charge| → |charge| ≤ 15 →
      msgChargeMed ∈ recs ∧
      severity_marker msgChargeMed = mediumSeverityMarker) := by
  rw [get_recommendations_eq d size charge encap hs hc he] at hr
  constructor
  · intro h15
    have hcr : charge_rec charge = some msgChargeHigh := by
      unfold charge_rec
      rw [if_pos h15]
    have hne : (size_rec size).toList ++ (charge_rec charge).toList
        ++ (encap_rec encap).toList ≠ [] := by simp [hcr]
    rw [if_neg hne] at hr
    obtain rfl := Option.some_injective _ hr
    exact ⟨by simp [hcr], by decide⟩
  · intro h10 h15
    have hcr : charge_rec charge = some msgChargeMed := by
      unfold charge_rec
      rw [if_neg (not_lt.mpr h15), if_pos h10]
    have hne : (size_rec size).toList ++ (charge_rec charge).toList
        ++ (encap_rec encap).toList ≠ [] := by simp [hcr]
    rw [if_neg hne] at hr
    obtain rfl := Option.some_injective _ hr
    exact ⟨by simp [hcr], by decide⟩

/-- C6 witness: the amended statement applied at Charge = 20 and at
Charge = 12. -/
theorem c6_charge_messages_amended_witness :
    (msgChargeHigh ∈ [msgChargeHigh] ∧
      severity_marker msgChargeHigh = mediumSeverityMarker) ∧
    (msgChargeMed ∈ [msgChargeMed] ∧
      severity_marker msgChargeMed = mediumSeverityMarker) := by
  have hhigh := c6_charge_messages_amended chargeCexDesign 100 20 90
    rfl rfl rfl [msgChargeHigh]
    (by rw [get_recommendations_eq chargeCexDesign 100 20 90 rfl rfl rfl]
        norm_num [size_rec, charge_rec, encap_rec])
  have hmed := c6_charge_messages_amended chargeMedDesign 100 12 90
    rfl rfl rfl [msgChargeMed]
    (by rw [get_recommendations_eq chargeMedDesign 100 12 90 rfl rfl rfl]
        norm_num [size_rec, charge_rec, encap_rec])
  exact ⟨hhigh.1 (by norm_num), hmed.2 (by norm_num) (by norm_num)⟩

/-- `validate_parameter`: three-tier status of a value against an optimal
range — ok inside the range, warning when strictly within 20 absolute units
of either bound, bad otherwise. The parameter name is not inspected. -/
def validate_parameter (param : String) (value lo hi : ℚ) : String :=
  if lo ≤ value ∧ value ≤ hi then "✅"
  else if |value - lo| < 20 ∨ |value - hi| < 20 then "🟡"
  else "🔴"

/-- C7: `validate_parameter` returns ok iff the value is inside [lo,hi];
outside the range it returns warning iff the value is within 20 absolute
units of either bound, and bad otherwise; in particular Size = 130 against
[80,120] is a warning and Size = 200 against [80,120] is bad. -/
theorem c7_validate_parameter_spec (param : String) (value lo hi : ℚ) :
    (validate_parameter param value lo hi = "✅" ↔ lo ≤ value ∧ value ≤ hi) ∧
    (¬(lo ≤ value ∧ value ≤ hi) →
      (validate_parameter param value lo hi = "🟡" ↔
        |value - lo| < 20 ∨ |value - hi| < 20)) ∧
    (¬(lo ≤ value ∧ value ≤ hi) →
      ¬(|value - lo| < 20 ∨ |value - hi| < 20) →
      validate_parameter param value lo hi = "🔴") ∧
    validate_parameter "Size" 130 80 120 = "🟡" ∧
    validate_parameter "Size" 200 80 120 = "🔴" := by
  refine ⟨?_, ?_, ?_, by norm_num [validate_parameter],
    by norm_num [validate_parameter]⟩ <;>
    unfold validate_parameter <;> split_ifs <;> simp_all

/-- C7 witness: the specification applied at the two concrete calls of the
spec example. -/
theorem c7_validate_parameter_spec_witness :
    (validate_parameter "Size" 130 80 120 = "🟡" ↔
      |(130:ℚ) - 80| < 20 ∨ |(130:ℚ) - 120| < 20) ∧
    validate_parameter "Size" 200 80 120 = "🔴" := by
  have h130 := c7_validate_parameter_spec "Size" 130 80 120
  have h200 := c7_validate_parameter_spec "Size" 200 80 120
  exact ⟨h130.2.1 (by norm_num), h200.2.2.1 (by norm_num) (by norm_num)⟩

/-- C8: `compute_impact` fails exactly when a required field is missing,
and with the required fields present it succeeds with the optional fields
`PDI`, `HydrodynamicSize`, `Stability`, `SurfaceArea`, `DegradationTime`
resolved to their defaults (0.15, Size*1.2, 85, 250, 30); no default is
ever substituted for a required field. -/
theorem c8_missing_required_fails (d : Design) :
    (compute_impact d = none ↔
      d.Size = none ∨ d.Charge = none ∨ d.Encapsulation = none) ∧
    (∀ size charge encap : ℚ, d.Size = some size → d.Charge = some charge →
      d.Encapsulation = some encap →
      compute_impact d = some (impactCore size charge encap
        (d.PDI.getD 0.15) (d.HydrodynamicSize.getD (size * 1.2))
        (d.Stability.getD 85) (d.SurfaceArea.getD 250)
        (d.DegradationTime.getD 30))) := by
  constructor
  · cases hs : d.Size <;> cases hc : d.Charge <;> cases he : d.Encapsulation <;>
      simp [compute_impact, hs, hc, he]
  · exact fun size charge encap hs hc he =>
      compute_impact_eq d size charge encap hs hc he

/-- C8 witness: a record missing `Size` fails, and the example design
succeeds with all optionals defaulted. -/
theorem c8_missing_required_fails_witness :
    compute_impact { Charge := some 5, Encapsulation := some 85 } = none ∧
    compute_impact exampleDesign = some (impactCore 100 5 85
      (exampleDesign.PDI.getD 0.15)
      (exampleDesign.HydrodynamicSize.getD (100 * 1.2))
      (exampleDesign.Stability.getD 85) (exampleDesign.SurfaceArea.getD 250)
      (exampleDesign.DegradationTime.getD 30)) :=
  ⟨(c8_missing_required_fails _).1.mpr (Or.inl rfl),
    (c8_missing_required_fails exampleDesign).2 100 5 85 rfl rfl rfl⟩

/-- C9: for a design whose `Size` is the falsy value 0 (with the required
fields present), the guarded ratio is 1.0 for every hydrodynamic size, so
the hydrodynamic sub-score is 100, and `compute_impact` still returns a
result instead of failing on a division. -/
theorem c9_zero_size_guard (d : Design) (charge encap : ℚ)
    (hs : d.Size = some 0) (hc : d.Charge = some charge)
    (he : d.Encapsulation = some encap) :
    (∀ hyd : ℚ, sizeRatioFn 0 hyd = 1 ∧ hydrodynamic_score 0 hyd = 100) ∧
    ∃ r, compute_impact d = some r := by
  refine ⟨fun hyd => ⟨by simp [sizeRatioFn], ?_⟩,
    ⟨_, compute_impact_eq d 0 charge encap hs hc he⟩⟩
  norm_num [hydrodynamic_score, sizeRatioFn]

/-- A design with the falsy Size 0. -/
def zeroSizeDesign : Design :=
  { Size := some 0, Charge := some 0, Encapsulation := some 50 }

/-- C9 witness: the division guard applied at the concrete zero-size
design. -/
theorem c9_zero_size_guard_witness :
    (sizeRatioFn 0 5 = 1 ∧ hydrodynamic_score 0 5 = 100) ∧
    ∃ r, compute_impact zeroSizeDesign = some r := by
  have h := c9_zero_size_guard zeroSizeDesign 0 50 rfl rfl rfl
  exact ⟨h.1 5, h.2⟩

/-- The approved-materials whitelist of the regulatory checklist. -/
def approvedMaterials : List String := ["Lipid NP", "PLGA"]

/-- The eight named boolean predicates of the regulatory checklist, in
order: Size ≤ 200, PDI < 0.3, |Charge| ≤ 30, Encapsulation ≥ 70,
Stability ≥ 80, approved material, DegradationTime < 90, and the
constantly-true sterilization placeholder. -/
def checklist_items (d : Design) (size charge encap : ℚ) : List Bool :=
  [decide (size ≤ 200),
   decide (d.PDI.getD 0.15 < 0.3),
   decide (|charge| ≤ 30),
   decide (encap ≥ 70),
   decide (d.Stability.getD 85 ≥ 80),
   d.Material.elim false fun m => approvedMaterials.contains m,
   decide (d.DegradationTime.getD 30 < 90),
   true]

/-- `regulatory_checklist`: the fraction of passed predicates as a
percentage. Reads the three required fields. -/
def regulatory_checklist (d : Design) : Option ℚ := do
  let size ← d.Size
  let charge ← d.Charge
  let encap ← d.Encapsulation
  let checklist := checklist_items d size charge encap
  let passed := checklist.count true
  let total := checklist.length
  pure ((passed : ℚ) / (total : ℚ) * 100)

/-- Unfolding lemma for `regulatory_checklist` with the required fields
present. -/
lemma regulatory_checklist_eq (d : Design) (size charge encap : ℚ)
    (hs : d.Size = some size) (hc : d.Charge = some charge)
    (he : d.Encapsulation = some encap) :
    regulatory_checklist d = some
      (((checklist_items d size charge encap).count true : ℚ) / 8 * 100) := by
  simp [regulatory_checklist, hs, hc, he, checklist_items]

/-- C10: with the required fields present, the regulatory checklist returns
`passed * 12.5` where `passed` counts the satisfied predicates; since the
sterilization placeholder is constantly true, `1 ≤ passed ≤ 8`, so the
result is a multiple of 12.5 lying in [12.5, 100] and is never 0. -/
theorem c10_checklist_multiple (d : Design) (size charge encap : ℚ)
    (hs : d.Size = some size) (hc : d.Charge = some charge)
    (he : d.Encapsulation = some encap) :
    1 ≤ (checklist_items d size charge encap).count true ∧
    (checklist_items d size charge encap).count true ≤ 8 ∧
    regulatory_checklist d = some
      (((checklist_items d size charge encap).count true : ℚ) * 12.5) := by
  refine ⟨?_, ?_, ?_⟩
  · exact List.count_pos_iff.mpr (by simp [checklist_items])
  · have h := List.count_le_length (l := checklist_items d size charge encap)
      (a := true)
    simpa [checklist_items] using h
  · rw [regulatory_checklist_eq d size charge encap hs hc he]
    congr 1
    ring

/-- C10 witness: the checklist facts applied at the example design (which
passes 7 of the 8 predicates, scoring 87.5). -/
theorem c10_checklist_multiple_witness :
    (1 ≤ (checklist_items exampleDesign 100 5 85).count true ∧
      (checklist_items exampleDesign 100 5 85).count true ≤ 8 ∧
      regulatory_checklist exampleDesign = some
        (((checklist_items exampleDesign 100 5 85).count true : ℚ) * 12.5)) ∧
    (checklist_items exampleDesign 100 5 85).count true = 7 := by
  refine ⟨c10_checklist_multiple exampleDesign 100 5 85 rfl rfl rfl, ?_⟩
  norm_num [checklist_items, exampleDesign, approvedMaterials, List.count]

end Scoring
